import Mathlib

/-
  Verification development for the jmail decoding engine (message.go).

  The source is embedded at the byte level: Go strings and []byte values are
  modelled as `List Nat` (one entry per byte), header maps as association
  lists, and the body stream of a MIME part as a structural value that
  records what the external multipart reader would yield on it.  The
  external collaborators of the core (base64 and quoted-printable codecs,
  the ISO-2022-JP transcoder, the media-type parser and the multipart
  reader) are modelled from their documented interfaces; the core functions
  DecSubject, DecBody, readPlainText and readAlternative are translated
  statement by statement from message.go.
-/

namespace Jmail

/-- Go byte strings: one `Nat` per byte (every literal used here is ASCII). -/
abbrev Bytes := List Nat

/-- ASCII literal helper: the bytes of an ASCII string. -/
def strBytes (s : String) : Bytes := s.data.map Char.toNat

/-- ASCII lower-casing of one byte, as `strings.ToLower` acts on ASCII.
(The Go function lowers full Unicode runes; every comparison made by the
source uses pure-ASCII patterns, for which the byte-wise model agrees.) -/
def asciiLower (c : Nat) : Nat := if 65 ≤ c ∧ c ≤ 90 then c + 32 else c

/-- Byte-list version of `strings.HasPrefix`. -/
def isPre : Bytes → Bytes → Bool
  | [], _ => true
  | _ :: _, [] => false
  | a :: p, b :: s => a == b && isPre p s

/-- Whitespace test of `strings.Fields` (`unicode.IsSpace`), ASCII range. -/
def isSpaceB (c : Nat) : Bool :=
  c == 32 || c == 9 || c == 10 || c == 13 || c == 11 || c == 12

/-- Accumulator pass of `fieldsB`: `cur` holds the bytes of the word being
read, most recent first. -/
def fieldsAux (cur : Bytes) : Bytes → List Bytes
  | [] => if cur.isEmpty then [] else [cur.reverse]
  | c :: t =>
    if isSpaceB c then
      if cur.isEmpty then fieldsAux [] t else cur.reverse :: fieldsAux [] t
    else fieldsAux (c :: cur) t

/-- Model of `strings.Fields`: split on runs of whitespace. -/
def fieldsB (b : Bytes) : List Bytes := fieldsAux [] b

/-- Model of `strings.LastIndex(t, "?=")`: index of the last occurrence of
the two bytes `?=`, `none` playing the role of Go's -1. -/
def lastQeq (t : Bytes) : Option Nat :=
  ((List.range t.length).reverse).find? (fun i => isPre [63, 61] (t.drop i))

/-- Error kinds surfaced by the decode path: `eof` models `io.EOF`,
`mediaType` a `mime.ParseMediaType` failure, `codec` a transfer-decoding
read failure. -/
inductive Gerr where
  | eof
  | mediaType
  | codec
  deriving DecidableEq, Repr

/-- Outcome of a Go call returning `([]byte, error)`, with a separate
`crash` outcome for a runtime panic (nil dereference, slice out of range). -/
inductive GoRes where
  | ret (body : Bytes) (e : Option Gerr)
  | crash
  deriving DecidableEq, Repr

/- ### Models of the external transfer-encoding codecs (spec section 6) -/

/-- Value of one standard-alphabet base64 character. -/
def b64Val (c : Nat) : Option Nat :=
  if 65 ≤ c ∧ c ≤ 90 then some (c - 65)
  else if 97 ≤ c ∧ c ≤ 122 then some (c - 97 + 26)
  else if 48 ≤ c ∧ c ≤ 57 then some (c - 48 + 52)
  else if c = 43 then some 62
  else if c = 47 then some 63
  else none

/-- Decode whole base64 quadruples; a final padded quadruple ends the
input, anything else malformed yields the bytes decoded so far plus an
error, as the Go decoder reports partial output with `CorruptInputError`. -/
def b64Quads : Bytes → Bytes × Option Gerr
  | [] => ([], none)
  | c1 :: c2 :: c3 :: c4 :: rest =>
    match b64Val c1, b64Val c2 with
    | some v1, some v2 =>
      if c3 = 61 then
        if c4 = 61 ∧ rest = [] then ([v1 * 4 + v2 / 16], none)
        else ([v1 * 4 + v2 / 16], some .codec)
      else
        match b64Val c3 with
        | some v3 =>
          if c4 = 61 then
            if rest = [] then ([v1 * 4 + v2 / 16, (v2 % 16) * 16 + v3 / 4], none)
            else ([v1 * 4 + v2 / 16, (v2 % 16) * 16 + v3 / 4], some .codec)
          else
            match b64Val c4 with
            | some v4 =>
              let r := b64Quads rest
              ((v1 * 4 + v2 / 16) :: ((v2 % 16) * 16 + v3 / 4) ::
                 ((v3 % 4) * 64 + v4) :: r.fst, r.snd)
            | none => ([v1 * 4 + v2 / 16, (v2 % 16) * 16 + v3 / 4], some .codec)
        | none => ([v1 * 4 + v2 / 16], some .codec)
    | _, _ => ([], some .codec)
  | _ => ([], some .codec)

/-- Model of the external standard base64 decoder: newlines are skipped
as by `encoding/base64`, then whole quadruples are decoded. -/
def b64Dec (input : Bytes) : Bytes × Option Gerr :=
  b64Quads (input.filter (fun c => !(c == 10 || c == 13)))

/-- Hexadecimal digit test, both cases. -/
def isHexB (c : Nat) : Bool :=
  (48 ≤ c && c ≤ 57) || (65 ≤ c && c ≤ 70) || (97 ≤ c && c ≤ 102)

/-- Value of a hexadecimal digit byte. -/
def hexVal (c : Nat) : Nat :=
  if 48 ≤ c ∧ c ≤ 57 then c - 48
  else if 65 ≤ c ∧ c ≤ 70 then c - 55
  else if 97 ≤ c ∧ c ≤ 102 then c - 87
  else 0

/-- Model of the external quoted-printable decoder (`mime/quotedprintable`):
hex escapes, soft line breaks, and the readers leniency of taking a `=`
followed by neither hex digits nor a line break as a literal byte.  The
codecs per-line trailing-whitespace trimming is not modelled; no theorem
below depends on it. -/
def qpDec : Bytes → Bytes × Option Gerr
  | [] => ([], none)
  | [61] => ([], some .codec)
  | 61 :: 13 :: 10 :: t => qpDec t
  | 61 :: 10 :: t => qpDec t
  | [61, a] =>
    if a = 13 then ([], some .codec)
    else
      let r := qpDec [a]
      (61 :: r.fst, r.snd)
  | 61 :: a :: b :: t =>
    if isHexB a && isHexB b then
      let r := qpDec t
      ((hexVal a * 16 + hexVal b) :: r.fst, r.snd)
    else if a ≠ 13 then
      let r := qpDec (a :: b :: t)
      (61 :: r.fst, r.snd)
    else ([], some .codec)
  | c :: t =>
    let r := qpDec t
    (c :: r.fst, r.snd)

/-- Modelled from the spec: the external ISO-2022-JP to UTF-8 transcoder
(spec section 6, charset transcoders; the transcoder itself is not part of
src/).  State machine over the escape sequences, exact on the ASCII range;
a double-byte JIS code and every invalid byte decode to U+FFFD, since the
concrete kanji values are outside the cores scope and no theorem below
inspects them. -/
def isoDecSt : Bool → Bytes → Bytes
  | _, [] => []
  | _, 27 :: 40 :: 66 :: t => isoDecSt false t
  | _, 27 :: 40 :: 74 :: t => isoDecSt false t
  | _, 27 :: 36 :: 64 :: t => isoDecSt true t
  | _, 27 :: 36 :: 66 :: t => isoDecSt true t
  | st, 27 :: t => 239 :: 191 :: 189 :: isoDecSt st t
  | false, c :: t =>
    if c < 128 then c :: isoDecSt false t
    else 239 :: 191 :: 189 :: isoDecSt false t
  | true, _ :: _ :: t => 239 :: 191 :: 189 :: isoDecSt true t
  | true, [_] => [239, 191, 189]

/-- Transcode ISO-2022-JP bytes to UTF-8, starting in ASCII mode. -/
def iso2022jpDec (input : Bytes) : Bytes := isoDecSt false input

/- ### Header map and the external media-type parser (spec section 6) -/

/-- A parsed header block: ordered key/value pairs, values verbatim. -/
abbrev Header := List (Bytes × Bytes)

/-- Model of `textproto.MIMEHeader.Get` / `mail.Header.Get`: first value
stored under the case-insensitively matching key, empty when absent. -/
def hget (h : Header) (key : Bytes) : Bytes :=
  match h.find? (fun kv => kv.fst.map asciiLower == key.map asciiLower) with
  | some kv => kv.snd
  | none => []

/-- Split a byte list at every occurrence of a separator byte. -/
def splitOnByte (sep : Nat) : Bytes → List Bytes
  | [] => [[]]
  | c :: t =>
    if c = sep then [] :: splitOnByte sep t
    else
      match splitOnByte sep t with
      | h :: r => (c :: h) :: r
      | [] => [[c]]

/-- Model of `strings.TrimSpace` on the ASCII range. -/
def trimB (b : Bytes) : Bytes :=
  ((b.dropWhile isSpaceB).reverse.dropWhile isSpaceB).reverse

/-- RFC 1521 token characters accepted by the media-type parser. -/
def isTokenByte (c : Nat) : Bool :=
  (48 ≤ c && c ≤ 57) || (65 ≤ c && c ≤ 90) || (97 ≤ c && c ≤ 122) ||
  (c == 33 || c == 35 || c == 36 || c == 37 || c == 38 || c == 39 ||
   c == 42 || c == 43 || c == 45 || c == 46 || c == 94 || c == 95 ||
   c == 96 || c == 124 || c == 126)

/-- A lower-cased media type is valid when it is `token` or `token/token`;
in particular the empty value is rejected, as Go reports
`mime: no media type`. -/
def mediaTypeOK (mt : Bytes) : Bool :=
  match splitOnByte 47 mt with
  | [t] => !t.isEmpty && t.all isTokenByte
  | [t, sub] => !t.isEmpty && t.all isTokenByte && !sub.isEmpty && sub.all isTokenByte
  | _ => false

/-- Split a parameter piece at its first `=` byte. -/
def splitFirstEq : Bytes → Option (Bytes × Bytes)
  | [] => none
  | 61 :: t => some ([], t)
  | c :: t => (splitFirstEq t).map (fun p => (c :: p.fst, p.snd))

/-- Strip one pair of surrounding double quotes from a parameter value. -/
def stripQuotes (v : Bytes) : Bytes :=
  if 2 ≤ v.length ∧ v.head? = some 34 ∧ v.getLast? = some 34 then
    (v.drop 1).take (v.length - 2)
  else v

/-- Parse the `;`-separated parameter pieces of a Content-Type value into
lower-cased names and values. -/
def parseParams : List Bytes → Option (List (Bytes × Bytes))
  | [] => some []
  | piece :: rest =>
    let p := trimB piece
    if p.isEmpty then parseParams rest
    else
      match splitFirstEq p with
      | none => none
      | some kv =>
        (parseParams rest).map
          (fun ps => ((trimB kv.fst).map asciiLower, stripQuotes (trimB kv.snd)) :: ps)

/-- Model of the external media-type parser (`mime.ParseMediaType` in the
source, an external collaborator per spec section 6): lower-cased media
type plus a map of lower-cased parameter names to values, failing on
malformed syntax and on the empty value. -/
def parseMediaType (v : Bytes) : Except Unit (Bytes × List (Bytes × Bytes)) :=
  match splitOnByte 59 v with
  | [] => .error ()
  | mt0 :: rest =>
    let mt := (trimB mt0).map asciiLower
    if mediaTypeOK mt then
      match parseParams rest with
      | some ps => .ok (mt, ps)
      | none => .error ()
    else .error ()

/-- Exact-key lookup in the parameter map produced by `parseMediaType`
(`params["charset"]`-style Go map access, empty when absent). -/
def pget (ps : List (Bytes × Bytes)) (key : Bytes) : Bytes :=
  match ps.find? (fun kv => kv.fst == key) with
  | some kv => kv.snd
  | none => []

/-- The parameter map the source extracts with
`_, params, err := mime.ParseMediaType(contentType)` while discarding the
error: Go leaves `params` nil on failure, modelled as the empty map. -/
def mtParams (ct : Bytes) : List (Bytes × Bytes) :=
  match parseMediaType ct with
  | .ok mp => mp.snd
  | .error _ => []

/- ### Subject decoder (DecSubject, message.go lines 79-122) -/

/-- The constant `SUBJ_PREFIX_ISO2022JP_B` of the source. -/
def SUBJ_ISO2022JP_B : Bytes := strBytes "=?iso-2022-jp?b?"

/-- The constant `SUBJ_PREFIX_ISO2022JP_Q` of the source. -/
def SUBJ_ISO2022JP_Q : Bytes := strBytes "=?iso-2022-jp?q?"

/-- The constant `SUBJ_PREFIX_UTF8_B` of the source. -/
def SUBJ_UTF8_B : Bytes := strBytes "=?utf-8?b?"

/-- The constant `SUBJ_PREFIX_UTF8_Q` of the source. -/
def SUBJ_UTF8_Q : Bytes := strBytes "=?utf-8?q?"

/-- The constant `CHARSET_ISO2022JP` of the source. -/
def CHARSET_ISO2022JP : Bytes := strBytes "iso-2022-jp"

/-- The constant `ENC_QUOTED_PRINTABLE` of the source. -/
def ENC_QUOTED_PRINTABLE : Bytes := strBytes "quoted-printable"

/-- The constant `ENC_BASE64` of the source. -/
def ENC_BASE64 : Bytes := strBytes "base64"

/-- The constant `MEDIATYPE_TEXT` of the source. -/
def MEDIATYPE_TEXT : Bytes := strBytes "text/"

/-- The constant `MEDIATYPE_MULTI` of the source. -/
def MEDIATYPE_MULTI : Bytes := strBytes "multipart/"

/-- The constant `MEDIATYPE_MULTI_ALT` of the source. -/
def MEDIATYPE_MULTI_ALT : Bytes := strBytes "multipart/alternative"

/-- One case guard of the DecSubject switch:
`len(parts) > len(pfx) && strings.HasPrefix(strings.ToLower(parts[0:len(pfx)]), pfx)`. -/
def subjMatch (pfx t : Bytes) : Bool :=
  decide (pfx.length < t.length) && ((t.take pfx.length).map asciiLower == pfx)

/-- The payload slice `parts[len(pfx):strings.LastIndex(parts, "?=")]`.
`none` models the runtime panic Go raises when `LastIndex` returns -1
(slice bound -1) or an index below the prefix length (inverted bounds). -/
def subjPayload (pfxLen : Nat) (t : Bytes) : Option Bytes :=
  match lastQeq t with
  | none => none
  | some j => if j < pfxLen then none else some ((t.drop pfxLen).take (j - pfxLen))

/-- Contribution of a token that starts with `=?`: the four recognized
charset/encoding cases of the switch in source order, with the implicit
default of the Go switch contributing nothing.  The iso-2022-jp cases pipe
the transfer-decoded bytes through the ISO-2022-JP transcoder; read errors
of the codecs are discarded exactly as the source discards them with `_`. -/
def subjEncTok (t : Bytes) : Option Bytes :=
  if subjMatch SUBJ_ISO2022JP_B t then
    (subjPayload SUBJ_ISO2022JP_B.length t).map (fun pl => iso2022jpDec (b64Dec pl).fst)
  else if subjMatch SUBJ_ISO2022JP_Q t then
    (subjPayload SUBJ_ISO2022JP_Q.length t).map (fun pl => iso2022jpDec (qpDec pl).fst)
  else if subjMatch SUBJ_UTF8_B t then
    (subjPayload SUBJ_UTF8_B.length t).map (fun pl => (b64Dec pl).fst)
  else if subjMatch SUBJ_UTF8_Q t then
    (subjPayload SUBJ_UTF8_Q.length t).map (fun pl => (qpDec pl).fst)
  else some []

/-- The `for seq, parts := range splitsubj` loop of DecSubject: `seq` is
the token index, `buf` the output buffer; `none` propagates a panic. -/
def subjLoop : List Bytes → Nat → Bytes → Option Bytes
  | [], _, buf => some buf
  | t :: rest, seq, buf =>
    if isPre (strBytes "=?") t = false then
      subjLoop rest (seq + 1) (buf ++ (if 0 < seq then [32] else []) ++ t)
    else
      match subjEncTok t with
      | none => none
      | some contrib => subjLoop rest (seq + 1) (buf ++ contrib)

/-- `DecSubject` on the raw Subject header value: split into
whitespace-separated tokens and run the switch over each.  The result is
the decoded byte string, `none` standing for the runtime panic described
at `subjPayload`. -/
def DecSubject (subject : Bytes) : Option Bytes :=
  subjLoop (fieldsB subject) 0 []

/- ### Body decoder (DecBody / readPlainText / readAlternative) -/

/-- Body stream of a MIME part, as seen through the external collaborators:
either raw leaf bytes, or the ordered sequence of results the external
multipart reader yields on it — `some` a sub-part, `none` a non-EOF
`NextPart` error, end of the list the `io.EOF` end-of-parts signal.
The byte-level serialization of a multipart body is outside the model
(no theorem reads a multipart body as leaf bytes). -/
inductive Body where
  | leaf (data : Bytes)
  | multi (items : List (Option (Header × Body)))

/-- Raw bytes a leaf read (`ioutil.ReadAll`-style) sees in a body. -/
def bodyBytes : Body → Bytes
  | .leaf d => d
  | .multi _ => []

/-- Model of `multipart.NewReader(body, boundary)` followed by repeated
`NextPart`: the recorded item sequence of the stream.  A leaf stream has
no boundary lines, so the reader reports `io.EOF` at once; the boundary
argument is carried for fidelity with the call sites but the structural
stream model already fixes the parts. -/
def multipartItems (b : Body) (_boundary : Bytes) : List (Option (Header × Body)) :=
  match b with
  | .leaf _ => []
  | .multi items => items

/-- The header keys used by the decode path. -/
def ctKey : Bytes := strBytes "Content-Type"

/-- Content-Transfer-Encoding header key. -/
def cteKey : Bytes := strBytes "Content-Transfer-Encoding"

/-- Charset parameter key. -/
def csKey : Bytes := strBytes "charset"

/-- Boundary parameter key. -/
def bdKey : Bytes := strBytes "boundary"

/-- `readPlainText` (message.go lines 178-198): dispatch on
Content-Transfer-Encoding, then on the charset parameter, returning the
`(mailbody, err)` pair of the Go function. -/
def readPlainText (header : Header) (body : Bytes) : Bytes × Option Gerr :=
  let contentType := hget header ctKey
  let encoding := hget header cteKey
  let params := mtParams contentType
  if encoding = ENC_QUOTED_PRINTABLE then
    if (pget params csKey).map asciiLower = CHARSET_ISO2022JP then
      (iso2022jpDec (qpDec body).fst, (qpDec body).snd)
    else qpDec body
  else if encoding = ENC_BASE64 then b64Dec body
  else if contentType = [] ∨ (pget params csKey).map asciiLower = CHARSET_ISO2022JP then
    (iso2022jpDec body, none)
  else (body, none)

/-- Lift the `(mailbody, err)` pair of a leaf read into a call result. -/
def retPair (r : Bytes × Option Gerr) : GoRes := .ret r.fst r.snd

/-- The `for` loop of `readAlternative` (message.go lines 205-222): walk
the sub-parts; end-of-parts returns the nil body with `io.EOF`; a non-EOF
`NextPart` error is only logged, after which the nil part is dereferenced
— a crash; a sub-part whose Content-Type fails to parse aborts with that
error; the first `text/*` sub-part is read as a leaf; every other
sub-part is skipped. -/
def altLoop : List (Option (Header × Body)) → GoRes
  | [] => .ret [] (some .eof)
  | none :: _ => .crash
  | some p :: rest =>
    match parseMediaType (hget p.fst ctKey) with
    | .error _ => .ret [] (some .mediaType)
    | .ok mp =>
      if isPre MEDIATYPE_TEXT mp.fst then retPair (readPlainText p.fst (bodyBytes p.snd))
      else altLoop rest

/-- `readAlternative` (message.go lines 201-223): open a multipart reader
over the alternative part with its boundary parameter and walk it. -/
def readAlternative (p : Header × Body) : GoRes :=
  let params := mtParams (hget p.fst ctKey)
  altLoop (multipartItems p.snd (pget params bdKey))

/-- The `for` loop of `DecBody` over the top-level parts (message.go lines
139-169): like `altLoop`, but a sub-part whose media type starts with
`multipart/alternative` is handed to `readAlternative` and its result —
success or failure — returned at once. -/
def dbLoop : List (Option (Header × Body)) → GoRes
  | [] => .ret [] (some .eof)
  | none :: _ => .crash
  | some p :: rest =>
    match parseMediaType (hget p.fst ctKey) with
    | .error _ => .ret [] (some .mediaType)
    | .ok mp =>
      if isPre MEDIATYPE_TEXT mp.fst then retPair (readPlainText p.fst (bodyBytes p.snd))
      else if isPre MEDIATYPE_MULTI_ALT mp.fst then readAlternative p
      else dbLoop rest

/-- A parsed mail message: the header block and the body stream. -/
structure Jmessage where
  header : Header
  body : Body

/-- `DecBody` (message.go lines 124-175): an absent Content-Type goes
straight to the leaf reader; a malformed one aborts with the parse error;
a `multipart/*` type walks the parts; any other type is read as a leaf. -/
def DecBody (msg : Jmessage) : GoRes :=
  let contentType := hget msg.header ctKey
  if contentType = [] then retPair (readPlainText msg.header (bodyBytes msg.body))
  else
    match parseMediaType contentType with
    | .error _ => .ret [] (some .mediaType)
    | .ok mp =>
      if isPre MEDIATYPE_MULTI mp.fst then
        dbLoop (multipartItems msg.body (pget mp.snd bdKey))
      else retPair (readPlainText msg.header (bodyBytes msg.body))

/- ### Concrete example messages used by the theorems below -/

/-- A multipart/mixed message whose first sub-part is itself a
multipart/mixed container holding a text/plain leaf `hello`, and whose
second sub-part is a text/plain leaf `world`. -/
def exNestedMixed : Jmessage :=
  ⟨[(strBytes "Content-Type", strBytes "multipart/mixed; boundary=b")],
   .multi
     [some ([(strBytes "Content-Type", strBytes "multipart/mixed; boundary=c")],
            .multi [some ([(strBytes "Content-Type", strBytes "text/plain")],
                          .leaf (strBytes "hello"))]),
      some ([(strBytes "Content-Type", strBytes "text/plain")],
            .leaf (strBytes "world"))]⟩

/-- A multipart/mixed message whose first sub-part is a multipart/alternative
container with no parts at all, and whose second sub-part is a text/plain
leaf `hi`. -/
def exEmptyAlt : Jmessage :=
  ⟨[(strBytes "Content-Type", strBytes "multipart/mixed; boundary=b")],
   .multi
     [some ([(strBytes "Content-Type", strBytes "multipart/alternative; boundary=q")],
            .multi []),
      some ([(strBytes "Content-Type", strBytes "text/plain")],
            .leaf (strBytes "hi"))]⟩

/-- A multipart/mixed message whose only sub-part carries no headers at
all, in particular no Content-Type. -/
def exNoSubCt : Jmessage :=
  ⟨[(strBytes "Content-Type", strBytes "multipart/mixed; boundary=b")],
   .multi [some ([], .leaf (strBytes "hi"))]⟩

/-- A multipart/mixed message on which the external multipart reader
reports a non-EOF failure on the first NextPart call. -/
def exReaderErr : Jmessage :=
  ⟨[(strBytes "Content-Type", strBytes "multipart/mixed; boundary=b")],
   .multi [none]⟩

/- ### Theorems -/

/-- C1 counterexample: on `exNestedMixed`, the first eligible text part of
the depth-first, left-to-right traversal of the whole MIME tree is the
`hello` leaf inside the nested multipart/mixed sub-part, yet DecBody
returns the shallower, later sibling `world` — the nested multipart/mixed
container is not descended into. -/
theorem decBody_nested_mixed_counterexample :
    DecBody exNestedMixed = GoRes.ret (strBytes "world") none ∧
    DecBody exNestedMixed ≠ GoRes.ret (strBytes "hello") none := by
  constructor
  · decide
  · decide

/-- C2: decode_subject is not total — on the token `=?utf-8?b?abcd`, which
carries a recognized encoded-word introducer but no closing `?=` marker,
`strings.LastIndex` yields -1 and the slice `parts[10:-1]` panics at
runtime, modelled by the `none` result. -/
theorem decSubject_panics_on_unterminated_word :
    DecSubject (strBytes "=?utf-8?b?abcd") = none := by decide

/-- C3 counterexample: on `exEmptyAlt` the decode of the first sub-part (an
empty multipart/alternative) yields end-of-stream, and DecBody returns
that `io.EOF` failure at once instead of continuing with the sibling
text/plain part `hi`. -/
theorem decBody_empty_alternative_counterexample :
    DecBody exEmptyAlt = GoRes.ret [] (some Gerr.eof) ∧
    DecBody exEmptyAlt ≠ GoRes.ret (strBytes "hi") none := by
  constructor
  · decide
  · decide

/-- C4 counterexample: on `exNoSubCt` the sub-part has no Content-Type
header, and instead of being treated as a text/plain leaf (which would
produce `hi`) the decode aborts with the media-type parse error raised on
the empty Content-Type value. -/
theorem decBody_subpart_missing_ct_counterexample :
    DecBody exNoSubCt = GoRes.ret [] (some Gerr.mediaType) ∧
    DecBody exNoSubCt ≠ GoRes.ret (strBytes "hi") none := by
  constructor
  · decide
  · decide

/-- C6: when the multipart reader reports a non-EOF failure while DecBody
iterates the parts, the failure is only logged and the nil part is then
dereferenced — the call crashes instead of returning an error. -/
theorem decBody_crashes_on_reader_error :
    DecBody exReaderErr = GoRes.crash := by decide

/-- C7 counterexample: after a silently-skipped unsupported encoded word
(`=?iso-8859-1?q?x?=`), nothing has been emitted, yet the following plain
token `hello` is still preceded by a space, because the separator decision
looks at the token index and not at the emitted output. -/
theorem decSubject_space_after_skipped_counterexample :
    DecSubject (strBytes "=?iso-8859-1?q?x?= hello") = some (strBytes " hello") ∧
    DecSubject (strBytes "=?iso-8859-1?q?x?= hello") ≠ some (strBytes "hello") := by
  constructor
  · decide
  · decide

/-- C8 counterexample: for a plain token between two recognized encoded
words, the output carries a single space before the plain token but no
space between the plain token and the following decoded word: the subject
`=?utf-8?q?A?= x =?utf-8?q?B?=` decodes to `A xB`, not `A x B`. -/
theorem decSubject_no_space_before_encoded_counterexample :
    DecSubject (strBytes "=?utf-8?q?A?= x =?utf-8?q?B?=") = some (strBytes "A xB") ∧
    DecSubject (strBytes "=?utf-8?q?A?= x =?utf-8?q?B?=") ≠ some (strBytes "A x B") := by
  constructor
  · decide
  · decide

/-- C1 (amended): the part walk of DecBody is not a full depth-first
traversal — a sub-part whose media type starts with `multipart/` but not
with `multipart/alternative` (for example `multipart/mixed`) is skipped
in favour of the remaining siblings, so text leaves nested inside it are
never reached. -/
theorem dbLoop_skips_other_multipart (ph : Header) (pb : Body)
    (rest : List (Option (Header × Body))) (mp : Bytes × List (Bytes × Bytes))
    (hparse : parseMediaType (hget ph ctKey) = .ok mp)
    (hnt : isPre MEDIATYPE_TEXT mp.fst = false)
    (hna : isPre MEDIATYPE_MULTI_ALT mp.fst = false) :
    dbLoop (some (ph, pb) :: rest) = dbLoop rest := by
  simp only [dbLoop]
  rw [hparse]
  simp [hnt, hna]

/-- C1 witness: a multipart/mixed sub-part is skipped by the walk. -/
theorem dbLoop_skips_other_multipart_wit :
    dbLoop [some ([(strBytes "Content-Type", strBytes "multipart/mixed; boundary=c")],
                  Body.leaf [])] = dbLoop [] :=
  dbLoop_skips_other_multipart _ _ _
    (strBytes "multipart/mixed", [(strBytes "boundary", strBytes "c")])
    rfl (by decide) (by decide)

/-- C3 (amended): when a sub-part's media type starts with
`multipart/alternative`, DecBody returns the result of `readAlternative`
on it at once — success, end-of-stream or error alike — and never
continues with the remaining sibling parts; only sub-parts that are
neither `text/*` nor `multipart/alternative` are skipped. -/
theorem dbLoop_returns_alternative_result (ph : Header) (pb : Body)
    (rest : List (Option (Header × Body))) (mp : Bytes × List (Bytes × Bytes))
    (hparse : parseMediaType (hget ph ctKey) = .ok mp)
    (hnt : isPre MEDIATYPE_TEXT mp.fst = false)
    (ha : isPre MEDIATYPE_MULTI_ALT mp.fst = true) :
    dbLoop (some (ph, pb) :: rest) = readAlternative (ph, pb) := by
  simp only [dbLoop]
  rw [hparse]
  simp [hnt, ha]

/-- C3 witness: an empty multipart/alternative sub-part makes the whole
decode return `io.EOF`, with an untouched text sibling still pending. -/
theorem dbLoop_returns_alternative_result_wit :
    dbLoop [some ([(strBytes "Content-Type", strBytes "multipart/alternative; boundary=q")],
                  Body.multi []),
            some ([(strBytes "Content-Type", strBytes "text/plain")],
                  Body.leaf (strBytes "hi"))]
      = readAlternative
          ([(strBytes "Content-Type", strBytes "multipart/alternative; boundary=q")],
           Body.multi []) :=
  dbLoop_returns_alternative_result _ _ _
    (strBytes "multipart/alternative", [(strBytes "boundary", strBytes "q")])
    rfl (by decide) (by decide)

/-- C4 (amended): only the top-level message with an absent Content-Type
is treated as a text/plain leaf and handed to the leaf decoder; a nested
sub-part with an absent Content-Type makes the media-type parse of the
empty value fail, aborting the decode with that error. -/
theorem decBody_missing_ct_toplevel_vs_subpart (h : Header) (b : Body)
    (ph : Header) (pb : Body) (rest : List (Option (Header × Body)))
    (htop : hget h ctKey = [])
    (hsub : hget ph ctKey = []) :
    DecBody ⟨h, b⟩ = retPair (readPlainText h (bodyBytes b)) ∧
    dbLoop (some (ph, pb) :: rest) = GoRes.ret [] (some Gerr.mediaType) := by
  constructor
  · simp only [DecBody]
    rw [htop]
    simp
  · simp only [dbLoop]
    rw [hsub]
    simp [show parseMediaType ([] : Bytes) = .error () from rfl]

/-- C4 witness: both halves at a concrete empty-header part. -/
theorem decBody_missing_ct_toplevel_vs_subpart_wit :
    DecBody ⟨[], Body.leaf (strBytes "x")⟩
      = retPair (readPlainText [] (strBytes "x")) ∧
    dbLoop [some (([] : Header), Body.leaf (strBytes "x"))]
      = GoRes.ret [] (some Gerr.mediaType) := by
  have h := decBody_missing_ct_toplevel_vs_subpart [] (Body.leaf (strBytes "x"))
    [] (Body.leaf (strBytes "x")) [] (by decide) (by decide)
  exact ⟨h.1, h.2⟩

/-- C5: the leaf decoder dispatches in priority order on
Content-Transfer-Encoding, then the charset parameter: quoted-printable
bytes are additionally transcoded from ISO-2022-JP exactly when the
charset is case-insensitively iso-2022-jp; base64 bytes are returned with
no charset transform; with neither transfer encoding, an absent
Content-Type or an iso-2022-jp charset sends the raw bytes through the
ISO-2022-JP transcoder, and anything else passes through unchanged. -/
theorem readPlainText_dispatch (header : Header) (body : Bytes) :
    (hget header cteKey = ENC_QUOTED_PRINTABLE →
      readPlainText header body =
        if (pget (mtParams (hget header ctKey)) csKey).map asciiLower = CHARSET_ISO2022JP
        then (iso2022jpDec (qpDec body).fst, (qpDec body).snd)
        else qpDec body) ∧
    (hget header cteKey = ENC_BASE64 →
      readPlainText header body = b64Dec body) ∧
    (hget header cteKey ≠ ENC_QUOTED_PRINTABLE → hget header cteKey ≠ ENC_BASE64 →
      (hget header ctKey = [] ∨
        (pget (mtParams (hget header ctKey)) csKey).map asciiLower = CHARSET_ISO2022JP) →
      readPlainText header body = (iso2022jpDec body, none)) ∧
    (hget header cteKey ≠ ENC_QUOTED_PRINTABLE → hget header cteKey ≠ ENC_BASE64 →
      hget header ctKey ≠ [] →
      (pget (mtParams (hget header ctKey)) csKey).map asciiLower ≠ CHARSET_ISO2022JP →
      readPlainText header body = (body, none)) := by
  refine ⟨?_, ?_, ?_, ?_⟩
  · intro h1
    simp only [readPlainText]
    rw [if_pos h1]
  · intro h2
    simp only [readPlainText]
    rw [h2]
    rw [if_neg (by decide), if_pos rfl]
  · intro h1 h2 h3
    simp only [readPlainText]
    rw [if_neg h1, if_neg h2, if_pos h3]
  · intro h1 h2 h3 h4
    simp only [readPlainText]
    rw [if_neg h1, if_neg h2, if_neg (not_or.mpr ⟨h3, h4⟩)]

/-- C5 witness: all four dispatch branches at concrete headers, with the
decoded results evaluated. -/
theorem readPlainText_dispatch_wit :
    readPlainText [(strBytes "Content-Transfer-Encoding", strBytes "quoted-printable"),
                   (strBytes "Content-Type", strBytes "text/plain; charset=ISO-2022-JP")]
        (strBytes "a=41b")
      = (strBytes "aAb", none) ∧
    readPlainText [(strBytes "Content-Transfer-Encoding", strBytes "base64"),
                   (strBytes "Content-Type", strBytes "text/plain; charset=iso-2022-jp")]
        (strBytes "aGk=")
      = (strBytes "hi", none) ∧
    readPlainText [(strBytes "Content-Type", strBytes "text/plain; charset=iso-2022-jp")]
        (strBytes "raw")
      = (strBytes "raw", none) ∧
    readPlainText [(strBytes "Content-Type", strBytes "text/plain; charset=utf-8")]
        (strBytes "raw")
      = (strBytes "raw", none) := by
  refine ⟨?_, ?_, ?_, ?_⟩
  · exact ((readPlainText_dispatch _ _).1 (by decide)).trans (by decide)
  · exact ((readPlainText_dispatch _ _).2.1 (by decide)).trans (by decide)
  · exact ((readPlainText_dispatch _ _).2.2.1 (by decide) (by decide) (by decide)).trans
      (by decide)
  · exact ((readPlainText_dispatch _ _).2.2.2 (by decide) (by decide) (by decide)
      (by decide)).trans (by decide)

/-- C9: on a message whose top-level media type is `multipart/*` (in
particular multipart/alternative) and whose first sub-part is a text part,
DecBody returns the leaf decode of that first sub-part whatever the
remaining parts are — the HTML alternative after a text/plain part is
never consulted. -/
theorem decBody_alternative_first_text_wins (h : Header)
    (ph : Header) (pb : Body) (rest : List (Option (Header × Body)))
    (mp mpp : Bytes × List (Bytes × Bytes))
    (htop : parseMediaType (hget h ctKey) = .ok mp)
    (hm : isPre MEDIATYPE_MULTI mp.fst = true)
    (hsub : parseMediaType (hget ph ctKey) = .ok mpp)
    (ht : isPre MEDIATYPE_TEXT mpp.fst = true) :
    DecBody ⟨h, Body.multi (some (ph, pb) :: rest)⟩ =
      retPair (readPlainText ph (bodyBytes pb)) := by
  have hne : hget h ctKey ≠ [] := by
    intro hempty
    rw [hempty] at htop
    simp [show parseMediaType ([] : Bytes) = .error () from rfl] at htop
  simp only [DecBody]
  rw [if_neg hne, htop]
  simp only [hm, if_true, multipartItems]
  simp only [dbLoop]
  rw [hsub]
  simp [ht]

/-- C9 witness: a multipart/alternative message with a text/plain first
part and a text/html second part yields the plain part's bytes. -/
theorem decBody_alternative_first_text_wins_wit :
    DecBody ⟨[(strBytes "Content-Type", strBytes "multipart/alternative; boundary=b")],
             Body.multi
               [some ([(strBytes "Content-Type", strBytes "text/plain")],
                      Body.leaf (strBytes "plain body")),
                some ([(strBytes "Content-Type", strBytes "text/html")],
                      Body.leaf (strBytes "htmlstuff"))]⟩
      = GoRes.ret (strBytes "plain body") none := by
  have h := decBody_alternative_first_text_wins
    [(strBytes "Content-Type", strBytes "multipart/alternative; boundary=b")]
    [(strBytes "Content-Type", strBytes "text/plain")]
    (Body.leaf (strBytes "plain body"))
    [some ([(strBytes "Content-Type", strBytes "text/html")],
           Body.leaf (strBytes "htmlstuff"))]
    (strBytes "multipart/alternative", [(strBytes "boundary", strBytes "b")])
    (strBytes "text/plain", [])
    rfl (by decide) rfl (by decide)
  exact h.trans (by decide)

/-- C10: the Content-Transfer-Encoding value is compared by exact byte
equality against the lowercase `quoted-printable` and `base64`, so any
other spelling (for example `Base64`) gets no transfer decoding and falls
through to the raw ISO-2022-JP-transcode branch or the unchanged
passthrough branch. -/
theorem readPlainText_encoding_exact_match (header : Header) (body : Bytes)
    (h1 : hget header cteKey ≠ ENC_QUOTED_PRINTABLE)
    (h2 : hget header cteKey ≠ ENC_BASE64) :
    readPlainText header body =
      if hget header ctKey = [] ∨
         (pget (mtParams (hget header ctKey)) csKey).map asciiLower = CHARSET_ISO2022JP
      then (iso2022jpDec body, none) else (body, none) := by
  simp only [readPlainText]
  rw [if_neg h1, if_neg h2]

/-- C10 witness: with the spelling `Base64` the base64 payload is not
decoded and passes through verbatim. -/
theorem readPlainText_encoding_exact_match_wit :
    readPlainText [(strBytes "Content-Transfer-Encoding", strBytes "Base64"),
                   (strBytes "Content-Type", strBytes "text/plain")]
        (strBytes "aGVsbG8=")
      = (strBytes "aGVsbG8=", none) := by
  have h := readPlainText_encoding_exact_match
    [(strBytes "Content-Transfer-Encoding", strBytes "Base64"),
     (strBytes "Content-Type", strBytes "text/plain")]
    (strBytes "aGVsbG8=") (by decide) (by decide)
  exact h.trans (by decide)

/-- C7 (amended): a plain token (one not starting with `=?`) is appended
preceded by a single space exactly when its index in the
whitespace-separated token list is positive — the separator decision looks
at the token's position, not at whether any output has been emitted. -/
theorem subjLoop_plain_token_space_iff_index (t : Bytes) (rest : List Bytes)
    (seq : Nat) (buf : Bytes)
    (h : isPre (strBytes "=?") t = false) :
    subjLoop (t :: rest) seq buf =
      subjLoop rest (seq + 1) (buf ++ (if 0 < seq then [32] else []) ++ t) := by
  simp only [subjLoop]
  rw [if_pos h]

/-- C7 witness: a plain token at index 1 after an arbitrary first token
gets its leading space regardless of the buffer contents. -/
theorem subjLoop_plain_token_space_iff_index_wit :
    subjLoop [strBytes "hello"] 1 [] = subjLoop [] 2 (strBytes " hello") :=
  subjLoop_plain_token_space_iff_index _ _ _ _ (by decide)

/-- C8 (amended): a recognized encoded word contributes its decoded bytes
with no separator on either side, whatever its index; combined with the
plain-token rule this means a plain token between two encoded words gets
exactly one space before it and none between it and the following decoded
word. -/
theorem subjLoop_encoded_token_no_separator (t : Bytes) (rest : List Bytes)
    (seq : Nat) (buf : Bytes) (contrib : Bytes)
    (h : isPre (strBytes "=?") t = true)
    (he : subjEncTok t = some contrib) :
    subjLoop (t :: rest) seq buf = subjLoop rest (seq + 1) (buf ++ contrib) := by
  simp only [subjLoop]
  rw [if_neg (by simp [h]), he]

/-- C8 witness: the encoded word `=?utf-8?q?B?=` at index 2 is appended to
the buffer `A x` with no space, giving `A xB`. -/
theorem subjLoop_encoded_token_no_separator_wit :
    subjLoop [strBytes "=?utf-8?q?B?="] 2 (strBytes "A x") = some (strBytes "A xB") :=
  (subjLoop_encoded_token_no_separator _ _ _ _ (strBytes "B")
    (by decide) (by decide)).trans (by decide)

end Jmail
